import Mathlib

/-!
Verification model of the konflux-ci/kargo mage tooling.

External commands (kind, kubectl, helm) are modelled by oracles passed as
parameters: an `Option String` is the outcome of a `sh.Run` call (`none` =
exit 0, `some e` = non-zero exit with error `e`), and an
`Except String String` is the outcome of a `sh.Output` call (ok carries the
captured stdout).  The filesystem and the set of live processes are an
explicit `SysState`.  Error values are modelled as the format strings from
the source, with quoting simplified.
-/

namespace Kargo

/-! ## Existence checks (internal/kind.go, internal/helm.go) -/

/-- `unicode.IsSpace` restricted to the ASCII range, as used by
`strings.TrimSpace`. -/
def goIsSpace (c : Char) : Bool :=
  c == ' ' || c == '\t' || c == '\n' || c == '\r' ||
  c == Char.ofNat 11 || c == Char.ofNat 12

/-- Model of `strings.TrimSpace`: drop leading and trailing whitespace. -/
def trimSpace (s : String) : String :=
  ⟨(((s.data.dropWhile goIsSpace).reverse.dropWhile goIsSpace).reverse)⟩

/-- Model of `strings.Split(s, "\n")`: split the character list at every
newline; splitting the empty string yields one empty field. -/
def splitLines : List Char → List (List Char)
  | [] => [[]]
  | c :: t =>
    if c = '\n' then [] :: splitLines t
    else
      match splitLines t with
      | [] => [[c]]
      | h :: r => (c :: h) :: r

/-- Model of `internal.ClusterExists`: runs `kind get clusters`; on command
failure the error is wrapped and returned; on success the output is split on
newlines and each line is trimmed and compared with the name. -/
def ClusterExists (name : String) (kindGetClusters : Except String String) :
    Bool × Option String :=
  match kindGetClusters with
  | .error e => (false, some ("failed to get clusters: " ++ e))
  | .ok clusters =>
    if (splitLines clusters.data).any
        (fun cluster => trimSpace ⟨cluster⟩ == name) then
      (true, none)
    else
      (false, none)

/-- Model of `internal.ReleaseExists`: runs `helm status name --namespace ns`;
any non-zero exit is mapped to (false, nil); a zero exit to (true, nil). -/
def ReleaseExists (name ns : String) (helmStatus : Option String) :
    Bool × Option String :=
  match helmStatus with
  | some _ => (false, none)
  | none => (true, none)

/-! ## Readiness polling (internal/helm.go WaitForNamespaceDeleted,
internal/argo.go WaitForArgoRolloutsReady)

Both loops are `for i := 0; i < 60; i++ { probe; if success return nil;
sleep 1s }` followed by a timeout error.  `pollLoop success err i r` runs the
loop from attempt index `i` with `r` attempts remaining, and returns the
result together with the total number of probe attempts performed. -/

def pollLoop (success : Nat → Bool) (timeoutErr : String) :
    Nat → Nat → Except String Unit × Nat
  | i, 0 => (.error timeoutErr, i)
  | i, r + 1 =>
    if success i then (.ok (), i + 1)
    else pollLoop success timeoutErr (i + 1) r

/-- Model of `internal.WaitForNamespaceDeleted`: the probe is
`kubectl get namespace ns`; a FAILING command means the namespace is gone
(success).  `runs i` is the outcome of the probe on attempt `i`. -/
def WaitForNamespaceDeleted (runs : Nat → Option String) (ns : String) :
    Except String Unit × Nat :=
  pollLoop (fun i => (runs i).isSome)
    ("timeout waiting for namespace " ++ ns ++ " to be deleted") 0 60

/-- Scan of `strings.Contains`: try the needle as a prefix at every suffix
of the haystack. -/
def containsAux (needle : List Char) : List Char → Bool
  | [] => needle.isEmpty
  | b :: t => needle.isPrefixOf (b :: t) || containsAux needle t

/-- `strings.Contains hay needle` modelled on the underlying character
lists. -/
def goContains (hay needle : String) : Bool :=
  containsAux needle.data hay.data

/-- Per-attempt success condition of `WaitForArgoRolloutsReady`:
`err == nil && strings.Contains(output, "Running")`. -/
def argoReady (outs : Nat → Except String String) (i : Nat) : Bool :=
  match outs i with
  | .ok output => goContains output "Running"
  | .error _ => false

/-- Model of `internal.WaitForArgoRolloutsReady`: the probe captures
`kubectl get pods ...`; success means the command succeeded and its output
contains "Running".  `outs i` is the outcome of the probe on attempt `i`. -/
def WaitForArgoRolloutsReady (outs : Nat → Except String String) (ns : String) :
    Except String Unit × Nat :=
  pollLoop (argoReady outs)
    ("timeout waiting for Argo Rollouts to be ready in namespace " ++ ns) 0 60

/-! ## Filesystem / process model for the port-forward manager
(internal/kind.go: PortForwardPIDFile, IsPortForwardRunning,
StartPortForward, StopPortForward)

The filesystem is an association list from paths to contents;  the set of
live processes a list of pids.  `os.FindProcess` never fails on Unix, and
`process.Signal(0)` succeeds exactly when the pid is alive; the fallible
steps whose outcome depends on the outside world (reading the PID file of an
existing entry, spawning, writing the PID file, delivering SIGTERM to a
process group) are controlled by explicit oracles. -/

structure SysState where
  files : List (String × String)
  alive : List Int
deriving DecidableEq

def findFile : List (String × String) → String → Option String
  | [], _ => none
  | (k, v) :: t, p => if k = p then some v else findFile t p

def eraseKey : List (String × String) → String → List (String × String)
  | [], _ => []
  | (k, v) :: t, p => if k = p then eraseKey t p else (k, v) :: eraseKey t p

def removePid : List Int → Int → List Int
  | [], _ => []
  | q :: t, pid => if q = pid then removePid t pid else q :: removePid t pid

def SysState.readFile (s : SysState) (p : String) : Option String :=
  findFile s.files p

def SysState.removeFile (s : SysState) (p : String) : SysState :=
  { s with files := eraseKey s.files p }

def SysState.writeFile (s : SysState) (p c : String) : SysState :=
  { s with files := (p, c) :: eraseKey s.files p }

def SysState.isAlive (s : SysState) (pid : Int) : Bool :=
  s.alive.contains pid

def SysState.killPid (s : SysState) (pid : Int) : SysState :=
  { s with alive := removePid s.alive pid }

/-! ### Models of Go library functions used on PID-file contents -/

/-- Digit-string parse underlying `strconv.Atoi`: all characters must be
decimal digits and there must be at least one. -/
def parseDigits? (l : List Char) : Option Nat :=
  if l ≠ [] ∧ l.all Char.isDigit then
    some (l.foldl (fun n c => 10 * n + (c.toNat - 48)) 0)
  else none

/-- Character-level body of `strconv.Atoi`: optional sign followed by
decimal digits. -/
def atoiChars : List Char → Option Int
  | [] => none
  | c :: rest =>
    if c = '-' then
      match parseDigits? rest with
      | none => none
      | some n => some (-(n : Int))
    else if c = '+' then
      match parseDigits? rest with
      | none => none
      | some n => some ((n : Int))
    else
      match parseDigits? (c :: rest) with
      | none => none
      | some n => some ((n : Int))

/-- Model of `strconv.Atoi` (numeric range checks are not modelled). -/
def atoi? (s : String) : Option Int :=
  atoiChars s.data

/-- The PID-file parse performed by `IsPortForwardRunning`:
`strconv.Atoi(strings.TrimSpace(contents))`. -/
def parsePid (s : String) : Option Int :=
  atoi? (trimSpace s)

/-- `fmt.Sprintf("%d", n)` for naturals: most-significant-first decimal
digits.  The fuel argument bounds the recursion depth; `n` itself is always
enough fuel. -/
def natChars : Nat → Nat → List Char
  | 0, _ => []
  | _ + 1, 0 => []
  | fuel + 1, n + 1 =>
    natChars fuel ((n + 1) / 10) ++ [Char.ofNat (48 + (n + 1) % 10)]

/-- `fmt.Sprintf("%d", pid)` modelled for integers. -/
def intRender (p : Int) : String :=
  if p < 0 then ⟨'-' :: natChars (-p).toNat (-p).toNat⟩
  else if p = 0 then ⟨['0']⟩
  else ⟨natChars p.toNat p.toNat⟩

/-! ### The port-forward manager itself -/

/-- Model of `internal.PortForwardPIDFile`: the deterministic PID-file path
for a (service, namespace) pair.  `xdg.DataHome` is modelled as the fixed
root of all PID-file paths. -/
def PortForwardPIDFile (service ns : String) : String :=
  "data/kargo/port-forward-" ++ service ++ "-" ++ ns ++ ".pid"

/-- Model of `internal.IsPortForwardRunning`.  Returns the updated state and
the (running, pid, err) triple.  Branches, in source order: missing PID file
gives (false, 0, nil); a failing `os.ReadFile` of the existing PID file
gives an error (`readOK` is the oracle for that read outcome); unparsable
contents give an error; a dead recorded process removes the PID file and
gives (false, 0, nil); otherwise (true, pid, nil). -/
def IsPortForwardRunningEnv (s : SysState) (readOK : Bool)
    (service ns : String) : SysState × Bool × Int × Option String :=
  let pidFile := PortForwardPIDFile service ns
  match s.readFile pidFile with
  | none => (s, false, 0, none)
  | some contents =>
    if ¬readOK then (s, false, 0, some "failed to read PID file")
    else
      match parsePid contents with
      | none => (s, false, 0, some "failed to parse PID")
      | some pid =>
        if s.isAlive pid then (s, true, pid, none)
        else (s.removeFile pidFile, false, 0, none)

/-- `internal.IsPortForwardRunning` when the read of the existing PID file
succeeds. -/
def IsPortForwardRunning (s : SysState) (service ns : String) :
    SysState × Bool × Int × Option String :=
  IsPortForwardRunningEnv s true service ns

/-- Oracle outcomes for the fallible steps of `StartPortForward`:
whether `os.MkdirAll` succeeds, whether `cmd.Start` succeeds (and which pid
the child gets), and whether the `os.WriteFile` of the PID file succeeds. -/
structure StartEnv where
  mkdirOK : Bool
  spawn : Option Int
  writeOK : Bool
deriving DecidableEq

/-- Model of `internal.StartPortForward`.  Ensures the data directory,
spawns the detached kubectl port-forward child, writes its pid to the PID
file; if that write fails, kills the child and errors.  Returns the updated
state, the returned pid, and the error. -/
def StartPortForward (s : SysState) (env : StartEnv)
    (service ns : String) (localPort remotePort : Int) :
    SysState × Int × Option String :=
  let _ := localPort
  let _ := remotePort
  if ¬env.mkdirOK then
    (s, 0, some "failed to create kargo data directory")
  else
    match env.spawn with
    | none => (s, 0, some "failed to start port-forward")
    | some pid =>
      let spawned : SysState := { s with alive := pid :: s.alive }
      if env.writeOK then
        (spawned.writeFile (PortForwardPIDFile service ns) (intRender pid),
         pid, none)
      else
        (spawned.killPid pid, 0, some "failed to save PID file")

/-- Model of `internal.StopPortForward`.  Checks the session via
`IsPortForwardRunning` (propagating its error, wrapped), errors when not
running, otherwise sends SIGTERM to the process group; only if that signal
succeeds is the PID file removed.  `killOK` is the oracle for the
`syscall.Kill(-pid, SIGTERM)` outcome. -/
def StopPortForward (s : SysState) (killOK : Bool) (service ns : String) :
    SysState × Option String :=
  match IsPortForwardRunning s service ns with
  | (s1, running, pid, err) =>
    match err with
    | some e => (s1, some ("failed to check port forwarding status: " ++ e))
    | none =>
      if ¬running then (s1, some "port forwarding is not running")
      else if killOK then
        ((s1.killPid pid).removeFile (PortForwardPIDFile service ns), none)
      else (s1, some "failed to stop port forwarding process")

/-! ## Helper lemmas about the poll loop -/

theorem pollLoop_timeout (success : Nat → Bool) (e : String) :
    ∀ r i, (∀ j, j < r → success (i + j) = false) →
      pollLoop success e i r = (.error e, i + r) := by
  intro r
  induction r with
  | zero => intro i _; simp [pollLoop]
  | succ r ih =>
    intro i h
    have h0 : success i = false := by simpa using h 0 (Nat.succ_pos r)
    have hrest : ∀ j, j < r → success (i + 1 + j) = false := by
      intro j hj
      have := h (j + 1) (by omega)
      simpa [Nat.add_assoc, Nat.add_comm 1 j] using this
    simp only [pollLoop, h0, Bool.false_eq_true, if_false]
    rw [ih (i + 1) hrest]
    have harith : i + 1 + r = i + (r + 1) := by omega
    rw [harith]

theorem pollLoop_first_success (success : Nat → Bool) (e : String) :
    ∀ r i k, k < r → (∀ j, j < k → success (i + j) = false) →
      success (i + k) = true →
      pollLoop success e i r = (.ok (), i + k + 1) := by
  intro r
  induction r with
  | zero => intro i k hk _ _; omega
  | succ r ih =>
    intro i k hk hbefore hk2
    cases k with
    | zero =>
      have h0 : success i = true := by simpa using hk2
      simp [pollLoop, h0]
    | succ k =>
      have h0 : success i = false := by simpa using hbefore 0 (Nat.succ_pos k)
      have hbefore2 : ∀ j, j < k → success (i + 1 + j) = false := by
        intro j hj
        have := hbefore (j + 1) (by omega)
        simpa [Nat.add_assoc, Nat.add_comm 1 j] using this
      have hk3 : success (i + 1 + k) = true := by
        have : i + 1 + k = i + (k + 1) := by omega
        rw [this]; exact hk2
      simp only [pollLoop, h0, Bool.false_eq_true, if_false]
      rw [ih (i + 1) k (by omega) hbefore2 hk3]
      have harith : i + 1 + k + 1 = i + (k + 1) + 1 := by omega
      rw [harith]

theorem isPrefixOf_append_self (l t : List Char) :
    l.isPrefixOf (l ++ t) = true := by
  induction l with
  | nil => simp [List.isPrefixOf]
  | cons a l ih => simp [List.isPrefixOf, ih]

theorem containsAux_of_append (n pre post : List Char) :
    containsAux n (pre ++ n ++ post) = true := by
  induction pre with
  | nil =>
    simp only [List.nil_append]
    cases n with
    | nil =>
      cases post with
      | nil => rfl
      | cons b t => simp [containsAux, List.isPrefixOf]
    | cons a t =>
      have h1 : (a :: t).isPrefixOf ((a :: t) ++ post) = true :=
        isPrefixOf_append_self (a :: t) post
      calc containsAux (a :: t) ((a :: t) ++ post)
          = ((a :: t).isPrefixOf ((a :: t) ++ post) ||
              containsAux (a :: t) (t ++ post)) := rfl
        _ = true := by rw [h1]; simp
  | cons b pre ih =>
    calc containsAux n ((b :: pre) ++ n ++ post)
        = (n.isPrefixOf ((b :: pre) ++ n ++ post) ||
            containsAux n (pre ++ n ++ post)) := rfl
      _ = true := by rw [ih]; simp

/-- The timeout messages literally contain the namespace. -/
theorem goContains_middle (pre ns post : String) :
    goContains (pre ++ ns ++ post) ns = true := by
  simp only [goContains, String.data_append]
  exact containsAux_of_append ns.data pre.data post.data

/-! ## Claim theorems: existence checks and polling -/

/-- C5: `ReleaseExists` never returns an error: a probe command that exits
non-zero yields (false, nil) — the probe error is swallowed — and a zero
exit yields (true, nil). -/
theorem releaseExists_swallows_probe_errors
    (name ns : String) (helmStatus : Option String) :
    (ReleaseExists name ns helmStatus).2 = none ∧
    (ReleaseExists name ns helmStatus =
      (true, none) ↔ helmStatus = none) ∧
    (ReleaseExists name ns helmStatus =
      (false, none) ↔ helmStatus ≠ none) := by
  cases helmStatus <;> simp [ReleaseExists]

/-- C10: `ClusterExists` does not swallow probe failures: a failing listing
command returns (false, wrapped error), and (false, nil) occurs exactly for
a successful listing none of whose trimmed lines equals the name. -/
theorem clusterExists_propagates_probe_errors
    (name : String) (kindGetClusters : Except String String) :
    (∀ e, kindGetClusters = .error e →
      ClusterExists name kindGetClusters =
        (false, some ("failed to get clusters: " ++ e))) ∧
    (ClusterExists name kindGetClusters = (false, none) ↔
      ∃ out, kindGetClusters = .ok out ∧
        (splitLines out.data).any
          (fun cluster => trimSpace ⟨cluster⟩ == name) = false) := by
  cases kindGetClusters with
  | error e => simp [ClusterExists]
  | ok out =>
    refine ⟨fun e h => Except.noConfusion h, ?_⟩
    by_cases h : (splitLines out.data).any
        (fun cluster => trimSpace ⟨cluster⟩ == name) = true
    · simp [ClusterExists, h]
      simpa using h
    · simp only [Bool.not_eq_true] at h
      simp [ClusterExists, h]
      simpa using h

/-- C4: a readiness wait whose condition never becomes true performs exactly
60 probe attempts and then returns a timeout error whose message names the
namespace; if the condition first holds on attempt k < 60, the wait returns
success having performed exactly k+1 probes. -/
theorem readinessPolls_sixty_attempts
    (runs : Nat → Option String) (outs : Nat → Except String String)
    (ns : String) :
    ((∀ i, i < 60 → (runs i).isSome = false) →
      WaitForNamespaceDeleted runs ns =
        (.error ("timeout waiting for namespace " ++ ns ++ " to be deleted"),
         60) ∧
      goContains ("timeout waiting for namespace " ++ ns ++ " to be deleted")
        ns = true) ∧
    (∀ k, k < 60 → (∀ j, j < k → (runs j).isSome = false) →
      (runs k).isSome = true →
      WaitForNamespaceDeleted runs ns = (.ok (), k + 1)) ∧
    ((∀ i, i < 60 → argoReady outs i = false) →
      WaitForArgoRolloutsReady outs ns =
        (.error
          ("timeout waiting for Argo Rollouts to be ready in namespace " ++ ns),
         60) ∧
      goContains
        ("timeout waiting for Argo Rollouts to be ready in namespace " ++ ns)
        ns = true) ∧
    (∀ k, k < 60 → (∀ j, j < k → argoReady outs j = false) →
      argoReady outs k = true →
      WaitForArgoRolloutsReady outs ns = (.ok (), k + 1)) := by
  refine ⟨fun h => ⟨?_, ?_⟩, fun k hk hb hs => ?_, fun h => ⟨?_, ?_⟩,
    fun k hk hb hs => ?_⟩
  · have := pollLoop_timeout (fun i => (runs i).isSome)
      ("timeout waiting for namespace " ++ ns ++ " to be deleted") 60 0
      (by intro j hj; simpa using h j hj)
    simpa [WaitForNamespaceDeleted] using this
  · have h0 : goContains
        ("timeout waiting for namespace " ++ ns ++ " to be deleted") ns =
        true := goContains_middle "timeout waiting for namespace " ns
        " to be deleted"
    exact h0
  · have := pollLoop_first_success (fun i => (runs i).isSome)
      ("timeout waiting for namespace " ++ ns ++ " to be deleted") 60 0 k hk
      (by intro j hj; simpa using hb j hj) (by simpa using hs)
    simpa [WaitForNamespaceDeleted] using this
  · have := pollLoop_timeout (argoReady outs)
      ("timeout waiting for Argo Rollouts to be ready in namespace " ++ ns)
      60 0 (by intro j hj; simpa using h j hj)
    simpa [WaitForArgoRolloutsReady] using this
  · have h0 : goContains
        ("timeout waiting for Argo Rollouts to be ready in namespace " ++ ns
          ++ "") ns = true :=
      goContains_middle "timeout waiting for Argo Rollouts to be ready in namespace "
        ns ""
    simpa using h0
  · have := pollLoop_first_success (argoReady outs)
      ("timeout waiting for Argo Rollouts to be ready in namespace " ++ ns)
      60 0 k hk (by intro j hj; simpa using hb j hj) (by simpa using hs)
    simpa [WaitForArgoRolloutsReady] using this

/-- Witness for C4: a never-satisfied probe times out after exactly 60
attempts; a probe first satisfied on attempt 2 returns success after exactly
3 attempts; same for the Argo Rollouts wait. -/
theorem readinessPolls_sixty_attempts_witness :
    WaitForNamespaceDeleted (fun _ => none) "argocd" =
      (.error ("timeout waiting for namespace " ++ "argocd" ++
        " to be deleted"), 60) ∧
    WaitForNamespaceDeleted (fun i => if i == 2 then some "gone" else none)
      "argocd" = (.ok (), 3) ∧
    WaitForArgoRolloutsReady (fun _ => .error "connection refused") "argocd" =
      (.error ("timeout waiting for Argo Rollouts to be ready in namespace "
        ++ "argocd"), 60) ∧
    WaitForArgoRolloutsReady
      (fun _ => .ok "argo-rollouts-abc   1/1   Running   0   5s") "argocd" =
      (.ok (), 1) := by
  refine ⟨?_, ?_, ?_, ?_⟩
  · exact ((readinessPolls_sixty_attempts (fun _ => none)
      (fun _ => .error "connection refused") "argocd").1 (by decide)).1
  · exact (readinessPolls_sixty_attempts
      (fun i => if i == 2 then some "gone" else none)
      (fun _ => .error "connection refused") "argocd").2.1 2 (by decide)
      (by decide) (by decide)
  · exact ((readinessPolls_sixty_attempts (fun _ => none)
      (fun _ => .error "connection refused") "argocd").2.2.1 (by decide)).1
  · exact (readinessPolls_sixty_attempts (fun _ => none)
      (fun _ => .ok "argo-rollouts-abc   1/1   Running   0   5s")
      "argocd").2.2.2 0 (by decide) (by omega) (by decide)

/-- Witness for C10 at a concrete failing probe and a concrete listing. -/
theorem clusterExists_propagates_probe_errors_witness :
    ClusterExists "kargo" (.error "no docker") =
      (false, some "failed to get clusters: no docker") ∧
    ClusterExists "kargo" (.ok "other\nclusters") = (false, none) := by
  constructor
  · exact (clusterExists_propagates_probe_errors "kargo"
      (.error "no docker")).1 "no docker" rfl
  · exact (clusterExists_propagates_probe_errors "kargo"
      (.ok "other\nclusters")).2.mpr ⟨"other\nclusters", rfl, by decide⟩

/-! ## Helper lemmas about the filesystem model -/

theorem findFile_eraseKey_self (l : List (String × String)) (p : String) :
    findFile (eraseKey l p) p = none := by
  induction l with
  | nil => rfl
  | cons kv t ih =>
    obtain ⟨k, v⟩ := kv
    by_cases h : k = p
    · rw [eraseKey, if_pos h]; exact ih
    · rw [eraseKey, if_neg h, findFile, if_neg h]; exact ih

theorem findFile_eraseKey_other (l : List (String × String)) (p q : String)
    (h : q ≠ p) : findFile (eraseKey l p) q = findFile l q := by
  induction l with
  | nil => rfl
  | cons kv t ih =>
    obtain ⟨k, v⟩ := kv
    by_cases hk : k = p
    · have hq : k ≠ q := by rw [hk]; exact fun e => h e.symm
      rw [eraseKey, if_pos hk, findFile, if_neg hq]; exact ih
    · by_cases hq : k = q
      · rw [eraseKey, if_neg hk, findFile, if_pos hq, findFile, if_pos hq]
      · rw [eraseKey, if_neg hk, findFile, if_neg hq, findFile, if_neg hq]
        exact ih

theorem eraseKey_of_findFile_none (l : List (String × String)) (p : String)
    (h : findFile l p = none) : eraseKey l p = l := by
  induction l with
  | nil => rfl
  | cons kv t ih =>
    obtain ⟨k, v⟩ := kv
    by_cases hk : k = p
    · rw [findFile, if_pos hk] at h; exact absurd h (by simp)
    · rw [findFile, if_neg hk] at h
      rw [eraseKey, if_neg hk, ih h]

theorem removePid_of_not_mem (l : List Int) (pid : Int)
    (h : l.contains pid = false) : removePid l pid = l := by
  induction l with
  | nil => rfl
  | cons q t ih =>
    simp only [List.contains_cons, Bool.or_eq_false_iff,
      beq_eq_false_iff_ne] at h
    rw [removePid, if_neg (fun e => h.1 e.symm), ih h.2]

/-! ## Decimal render / parse roundtrip

`StartPortForward` records the pid with `fmt.Sprintf`; `IsPortForwardRunning`
recovers it with `strconv.Atoi` after `strings.TrimSpace`.  These lemmas
establish that the recorded pid always parses back to itself. -/

theorem digitChar_toNat (d : Nat) (h : d < 10) :
    (Char.ofNat (48 + d)).toNat = 48 + d := by
  interval_cases d <;> decide

theorem digitChar_isDigit (d : Nat) (h : d < 10) :
    (Char.ofNat (48 + d)).isDigit = true := by
  interval_cases d <;> decide

theorem isDigit_facts (c : Char) (h : c.isDigit = true) :
    goIsSpace c = false ∧ c ≠ '-' ∧ c ≠ '+' := by
  refine ⟨?_, ?_, ?_⟩
  · by_contra hs
    simp only [Bool.not_eq_false, goIsSpace] at hs
    have hs2 : c = ' ' ∨ c = '\t' ∨ c = '\n' ∨ c = '\r' ∨
        c = Char.ofNat 11 ∨ c = Char.ofNat 12 := by
      simpa [Bool.or_eq_true, beq_iff_eq, or_assoc] using hs
    rcases hs2 with rfl | rfl | rfl | rfl | rfl | rfl <;>
      exact absurd h (by decide)
  · rintro rfl; exact absurd h (by decide)
  · rintro rfl; exact absurd h (by decide)

theorem natChars_zero (fuel : Nat) : natChars fuel 0 = [] := by
  cases fuel <;> rfl

theorem natChars_all_digit :
    ∀ fuel n, n ≤ fuel → ∀ c ∈ natChars fuel n, c.isDigit = true := by
  intro fuel
  induction fuel with
  | zero => intro n hn c hc; simp [natChars] at hc
  | succ fuel ih =>
    intro n hn c hc
    cases n with
    | zero => simp [natChars] at hc
    | succ n =>
      simp only [natChars, List.mem_append, List.mem_singleton] at hc
      rcases hc with hc | rfl
      · have hm : (n + 1) / 10 ≤ fuel := by
          have := Nat.div_lt_self (Nat.succ_pos n) (by norm_num : 1 < 10)
          omega
        exact ih ((n + 1) / 10) hm c hc
      · exact digitChar_isDigit ((n + 1) % 10) (Nat.mod_lt _ (by norm_num))

theorem natChars_ne_nil (fuel n : Nat) (h0 : 0 < n) (h : n ≤ fuel) :
    natChars fuel n ≠ [] := by
  cases fuel with
  | zero => omega
  | succ fuel =>
    cases n with
    | zero => omega
    | succ n => simp [natChars]

theorem natChars_foldl :
    ∀ fuel n, n ≤ fuel → ∀ a : Nat,
      (natChars fuel n).foldl (fun m c => 10 * m + (c.toNat - 48)) a =
        a * 10 ^ (natChars fuel n).length + n := by
  intro fuel
  induction fuel with
  | zero =>
    intro n hn a
    have : n = 0 := by omega
    subst this
    simp [natChars]
  | succ fuel ih =>
    intro n hn a
    cases n with
    | zero => simp [natChars]
    | succ n =>
      have hm : (n + 1) / 10 ≤ fuel := by
        have := Nat.div_lt_self (Nat.succ_pos n) (by norm_num : 1 < 10)
        omega
      have hd : (n + 1) % 10 < 10 := Nat.mod_lt _ (by norm_num)
      simp only [natChars, List.foldl_append, List.foldl_cons, List.foldl_nil,
        List.length_append, List.length_cons, List.length_nil]
      rw [ih ((n + 1) / 10) hm a, digitChar_toNat _ hd]
      have hdm : 10 * ((n + 1) / 10) + (n + 1) % 10 = n + 1 :=
        Nat.div_add_mod (n + 1) 10
      have hpow : 10 ^ ((natChars fuel ((n + 1) / 10)).length + 1) =
          10 ^ (natChars fuel ((n + 1) / 10)).length * 10 := pow_succ 10 _
      rw [hpow]
      ring_nf
      omega

theorem parseDigits_natChars (n : Nat) (h : 0 < n) :
    parseDigits? (natChars n n) = some n := by
  have hne := natChars_ne_nil n n h le_rfl
  have hdig : (natChars n n).all Char.isDigit = true := by
    rw [List.all_eq_true]
    exact fun c hc => natChars_all_digit n n le_rfl c hc
  simp only [parseDigits?]
  rw [if_pos ⟨hne, hdig⟩]
  rw [natChars_foldl n n le_rfl 0]
  simp

theorem dropWhile_eq_self_of_none (p : Char → Bool) (l : List Char)
    (h : ∀ c ∈ l, p c = false) : l.dropWhile p = l := by
  cases l with
  | nil => rfl
  | cons a t => simp [List.dropWhile_cons, h a (List.mem_cons_self a t)]

theorem trimSpace_of_no_space (l : List Char)
    (h : ∀ c ∈ l, goIsSpace c = false) : trimSpace ⟨l⟩ = ⟨l⟩ := by
  simp only [trimSpace]
  rw [dropWhile_eq_self_of_none _ l h]
  rw [dropWhile_eq_self_of_none _ l.reverse
    (fun c hc => h c (List.mem_reverse.mp hc))]
  rw [List.reverse_reverse]

theorem natChars_no_space (n : Nat) (c : Char) (hc : c ∈ natChars n n) :
    goIsSpace c = false :=
  (isDigit_facts c (natChars_all_digit n n le_rfl c hc)).1

theorem atoiChars_natChars (n : Nat) (h : 0 < n) :
    atoiChars (natChars n n) = some (n : Int) := by
  obtain ⟨c, rest, hcr⟩ :=
    List.exists_cons_of_ne_nil (natChars_ne_nil n n h le_rfl)
  have hdig : c.isDigit = true :=
    natChars_all_digit n n le_rfl c
      (by rw [hcr]; exact List.mem_cons_self c rest)
  obtain ⟨_, hminus, hplus⟩ := isDigit_facts c hdig
  rw [hcr, atoiChars, if_neg hminus, if_neg hplus, ← hcr,
    parseDigits_natChars n h]

/-- The pid written by `StartPortForward` is recovered exactly by the
`TrimSpace` + `Atoi` parse in `IsPortForwardRunning`. -/
theorem parsePid_intRender (p : Int) : parsePid (intRender p) = some p := by
  rcases lt_trichotomy p 0 with hneg | rfl | hpos
  · have hn0 : 0 < (-p).toNat := by omega
    have hrender : intRender p = ⟨'-' :: natChars (-p).toNat (-p).toNat⟩ := by
      rw [intRender, if_pos hneg]
    rw [hrender]
    have hnospace : ∀ c ∈ '-' :: natChars (-p).toNat (-p).toNat,
        goIsSpace c = false := by
      intro c hc
      rcases List.mem_cons.mp hc with rfl | hc
      · decide
      · exact natChars_no_space _ c hc
    unfold parsePid
    rw [trimSpace_of_no_space _ hnospace]
    simp only [atoi?]
    rw [atoiChars, if_pos rfl, parseDigits_natChars _ hn0]
    have htn : ((-p).toNat : Int) = -p := Int.toNat_of_nonneg (by omega)
    show some (-(((-p).toNat : Nat) : Int)) = some p
    rw [htn, neg_neg]
  · decide
  · have hn0 : 0 < p.toNat := by omega
    have hlt : ¬p < 0 := by omega
    have hz : ¬p = 0 := by omega
    have hrender : intRender p = ⟨natChars p.toNat p.toNat⟩ := by
      rw [intRender, if_neg hlt, if_neg hz]
    rw [hrender]
    unfold parsePid
    rw [trimSpace_of_no_space _ (natChars_no_space p.toNat)]
    simp only [atoi?]
    rw [atoiChars_natChars p.toNat hn0]
    congr 1
    omega

/-! ## Claim theorems: the port-forward manager -/

/-- C3: a PID file recording a dead process makes `IsPortForwardRunning`
return (false, 0) with no error and delete the stale PID file; afterwards no
PID file remains for the pair, and a second consecutive call also returns
(false, 0) with no error. -/
theorem isPortForwardRunning_stale_cleanup
    (s : SysState) (service ns c : String) (pid : Int)
    (hf : s.readFile (PortForwardPIDFile service ns) = some c)
    (hp : parsePid c = some pid)
    (hd : s.isAlive pid = false) :
    IsPortForwardRunning s service ns =
      (s.removeFile (PortForwardPIDFile service ns), false, 0, none) ∧
    (s.removeFile (PortForwardPIDFile service ns)).readFile
      (PortForwardPIDFile service ns) = none ∧
    IsPortForwardRunning (s.removeFile (PortForwardPIDFile service ns))
      service ns =
      (s.removeFile (PortForwardPIDFile service ns), false, 0, none) := by
  have h2 : (s.removeFile (PortForwardPIDFile service ns)).readFile
      (PortForwardPIDFile service ns) = none := by
    simp only [SysState.readFile, SysState.removeFile]
    exact findFile_eraseKey_self s.files _
  refine ⟨?_, h2, ?_⟩
  · simp [IsPortForwardRunning, IsPortForwardRunningEnv, hf, hp, hd]
  · simp only [IsPortForwardRunning, IsPortForwardRunningEnv, h2]

/-- Witness for C3 at a concrete stale state. -/
theorem isPortForwardRunning_stale_cleanup_witness :
    IsPortForwardRunning
      ⟨[(PortForwardPIDFile "web" "default", "3")], []⟩ "web" "default" =
      ((⟨[(PortForwardPIDFile "web" "default", "3")],
        []⟩ : SysState).removeFile (PortForwardPIDFile "web" "default"),
       false, 0, none) ∧
    ((⟨[(PortForwardPIDFile "web" "default", "3")],
      []⟩ : SysState).removeFile (PortForwardPIDFile "web" "default")).readFile
      (PortForwardPIDFile "web" "default") = none ∧
    IsPortForwardRunning
      ((⟨[(PortForwardPIDFile "web" "default", "3")],
        []⟩ : SysState).removeFile (PortForwardPIDFile "web" "default"))
      "web" "default" =
      ((⟨[(PortForwardPIDFile "web" "default", "3")],
        []⟩ : SysState).removeFile (PortForwardPIDFile "web" "default"),
       false, 0, none) :=
  isPortForwardRunning_stale_cleanup _ "web" "default" "3" 3
    (by decide) (by decide) (by decide)

/-- C7: a PID file whose contents do not parse makes `IsPortForwardRunning`
return (false, 0, error), while a missing PID file returns (false, 0, nil)
with no error. -/
theorem isPortForwardRunning_malformed_pid_errors
    (s : SysState) (service ns c : String)
    (hf : s.readFile (PortForwardPIDFile service ns) = some c)
    (hp : parsePid c = none) :
    IsPortForwardRunning s service ns =
      (s, false, 0, some "failed to parse PID") ∧
    ∀ s2 : SysState, s2.readFile (PortForwardPIDFile service ns) = none →
      IsPortForwardRunning s2 service ns = (s2, false, 0, none) := by
  constructor
  · simp [IsPortForwardRunning, IsPortForwardRunningEnv, hf, hp]
  · intro s2 h2
    simp only [IsPortForwardRunning, IsPortForwardRunningEnv, h2]

/-- Witness for C7 with an unparsable PID file. -/
theorem isPortForwardRunning_malformed_pid_errors_witness :
    IsPortForwardRunning
      ⟨[(PortForwardPIDFile "web" "default", "oops")], []⟩ "web" "default" =
      (⟨[(PortForwardPIDFile "web" "default", "oops")], []⟩,
       false, 0, some "failed to parse PID") ∧
    ∀ s2 : SysState, s2.readFile (PortForwardPIDFile "web" "default") = none →
      IsPortForwardRunning s2 "web" "default" = (s2, false, 0, none) :=
  isPortForwardRunning_malformed_pid_errors _ "web" "default" "oops"
    (by decide) (by decide)

/-- C9: when `IsPortForwardRunning` fails because the PID file contents
cannot be read (the `os.ReadFile` error branch) or cannot be parsed, it
leaves the state (in particular the PID file) unchanged, and a repeated call
under the same conditions fails with the same error. -/
theorem isPortForwardRunning_unreadable_or_malformed_frame
    (s : SysState) (service ns c : String)
    (hf : s.readFile (PortForwardPIDFile service ns) = some c) :
    (IsPortForwardRunningEnv s false service ns =
      (s, false, 0, some "failed to read PID file") ∧
     (IsPortForwardRunningEnv s false service ns).1.readFile
       (PortForwardPIDFile service ns) = some c ∧
     IsPortForwardRunningEnv (IsPortForwardRunningEnv s false service ns).1
       false service ns =
      (s, false, 0, some "failed to read PID file")) ∧
    (parsePid c = none →
     IsPortForwardRunning s service ns =
       (s, false, 0, some "failed to parse PID") ∧
     (IsPortForwardRunning s service ns).1.readFile
       (PortForwardPIDFile service ns) = some c ∧
     IsPortForwardRunning (IsPortForwardRunning s service ns).1 service ns =
       (s, false, 0, some "failed to parse PID")) := by
  constructor
  · have h1 : IsPortForwardRunningEnv s false service ns =
        (s, false, 0, some "failed to read PID file") := by
      simp [IsPortForwardRunningEnv, hf]
    refine ⟨h1, ?_, ?_⟩
    · rw [h1]; exact hf
    · rw [h1]; exact h1
  · intro hp
    have h1 : IsPortForwardRunning s service ns =
        (s, false, 0, some "failed to parse PID") := by
      simp [IsPortForwardRunning, IsPortForwardRunningEnv, hf, hp]
    refine ⟨h1, ?_, ?_⟩
    · rw [h1]; exact hf
    · rw [h1]; exact h1

/-- Witness for C9 with an unreadable and then an unparsable PID file. -/
theorem isPortForwardRunning_unreadable_or_malformed_frame_witness :
    (IsPortForwardRunningEnv
      ⟨[(PortForwardPIDFile "web" "default", "oops")], []⟩ false
      "web" "default" =
      (⟨[(PortForwardPIDFile "web" "default", "oops")], []⟩,
       false, 0, some "failed to read PID file") ∧
     (IsPortForwardRunningEnv
       ⟨[(PortForwardPIDFile "web" "default", "oops")], []⟩ false
       "web" "default").1.readFile (PortForwardPIDFile "web" "default") =
       some "oops" ∧
     IsPortForwardRunningEnv
       (IsPortForwardRunningEnv
         ⟨[(PortForwardPIDFile "web" "default", "oops")], []⟩ false
         "web" "default").1 false "web" "default" =
       (⟨[(PortForwardPIDFile "web" "default", "oops")], []⟩,
        false, 0, some "failed to read PID file")) ∧
    (IsPortForwardRunning
      ⟨[(PortForwardPIDFile "web" "default", "oops")], []⟩ "web" "default" =
      (⟨[(PortForwardPIDFile "web" "default", "oops")], []⟩,
       false, 0, some "failed to parse PID") ∧
     (IsPortForwardRunning
       ⟨[(PortForwardPIDFile "web" "default", "oops")], []⟩
       "web" "default").1.readFile (PortForwardPIDFile "web" "default") =
       some "oops" ∧
     IsPortForwardRunning
       (IsPortForwardRunning
         ⟨[(PortForwardPIDFile "web" "default", "oops")], []⟩
         "web" "default").1 "web" "default" =
       (⟨[(PortForwardPIDFile "web" "default", "oops")], []⟩,
        false, 0, some "failed to parse PID")) :=
  have h := isPortForwardRunning_unreadable_or_malformed_frame
    ⟨[(PortForwardPIDFile "web" "default", "oops")], []⟩ "web" "default"
    "oops" (by decide)
  ⟨h.1, h.2 (by decide)⟩

/-- C6: if `StartPortForward` spawns the child but the PID-file write fails,
the child is killed and an error returned, leaving the state exactly as
before the call; on success the returned value is the pid recorded in the
PID file, and `IsPortForwardRunning` then reports (true, pid). -/
theorem startPortForward_write_failure_kills_child
    (s : SysState) (service ns : String) (lp rp pid : Int)
    (hfresh : s.isAlive pid = false) :
    StartPortForward s ⟨true, some pid, false⟩ service ns lp rp =
      (s, 0, some "failed to save PID file") ∧
    StartPortForward s ⟨true, some pid, true⟩ service ns lp rp =
      (SysState.writeFile ⟨s.files, pid :: s.alive⟩
        (PortForwardPIDFile service ns) (intRender pid), pid, none) ∧
    (SysState.writeFile ⟨s.files, pid :: s.alive⟩
      (PortForwardPIDFile service ns) (intRender pid)).readFile
      (PortForwardPIDFile service ns) = some (intRender pid) ∧
    parsePid (intRender pid) = some pid ∧
    IsPortForwardRunning
      (SysState.writeFile ⟨s.files, pid :: s.alive⟩
        (PortForwardPIDFile service ns) (intRender pid)) service ns =
      (SysState.writeFile ⟨s.files, pid :: s.alive⟩
        (PortForwardPIDFile service ns) (intRender pid), true, pid, none) := by
  have hcontains : s.alive.contains pid = false := hfresh
  have hread : (SysState.writeFile ⟨s.files, pid :: s.alive⟩
      (PortForwardPIDFile service ns) (intRender pid)).readFile
      (PortForwardPIDFile service ns) = some (intRender pid) := by
    simp [SysState.writeFile, SysState.readFile, findFile]
  have halive : (SysState.writeFile ⟨s.files, pid :: s.alive⟩
      (PortForwardPIDFile service ns) (intRender pid)).isAlive pid = true := by
    simp [SysState.writeFile, SysState.isAlive, List.contains_cons]
  refine ⟨?_, ?_, hread, parsePid_intRender pid, ?_⟩
  · have hrp : removePid (pid :: s.alive) pid = s.alive := by
      rw [removePid, if_pos rfl, removePid_of_not_mem s.alive pid hcontains]
    simp [StartPortForward, SysState.killPid, hrp]
  · simp [StartPortForward]
  · simp only [IsPortForwardRunning, IsPortForwardRunningEnv, hread, parsePid_intRender, halive]
    simp

/-- Witness for C6 at a concrete state and pid. -/
theorem startPortForward_write_failure_kills_child_witness :
    StartPortForward ⟨[], [7]⟩ ⟨true, some 42, false⟩ "web" "default" 8080 80 =
      (⟨[], [7]⟩, 0, some "failed to save PID file") ∧
    StartPortForward ⟨[], [7]⟩ ⟨true, some 42, true⟩ "web" "default" 8080 80 =
      (SysState.writeFile ⟨[], 42 :: [7]⟩
        (PortForwardPIDFile "web" "default") (intRender 42), 42, none) ∧
    (SysState.writeFile ⟨[], 42 :: [7]⟩
      (PortForwardPIDFile "web" "default") (intRender 42)).readFile
      (PortForwardPIDFile "web" "default") = some (intRender 42) ∧
    parsePid (intRender 42) = some 42 ∧
    IsPortForwardRunning
      (SysState.writeFile ⟨[], 42 :: [7]⟩
        (PortForwardPIDFile "web" "default") (intRender 42)) "web" "default" =
      (SysState.writeFile ⟨[], 42 :: [7]⟩
        (PortForwardPIDFile "web" "default") (intRender 42),
       true, 42, none) :=
  startPortForward_write_failure_kills_child ⟨[], [7]⟩ "web" "default"
    8080 80 42 (by decide)

/-- C8: `StartPortForward` never consults the existing PID file: with a
session already recorded and alive, a successful new call returns the new
pid, overwrites the PID file with it, and leaves the old process alive but
no longer recorded anywhere. -/
theorem startPortForward_overwrites_existing_pidfile
    (s : SysState) (service ns : String) (lp rp : Int)
    (c : String) (oldPid newPid : Int)
    (hf : s.readFile (PortForwardPIDFile service ns) = some c)
    (hp : parsePid c = some oldPid)
    (ha : s.isAlive oldPid = true)
    (hne : newPid ≠ oldPid) :
    (StartPortForward s ⟨true, some newPid, true⟩ service ns lp rp).2 =
      (newPid, none) ∧
    (StartPortForward s ⟨true, some newPid, true⟩ service ns lp rp).1.readFile
      (PortForwardPIDFile service ns) = some (intRender newPid) ∧
    parsePid (intRender newPid) = some newPid ∧
    (StartPortForward s ⟨true, some newPid, true⟩ service ns lp rp).1.isAlive
      oldPid = true ∧
    ∀ t : SysState,
      (StartPortForward t ⟨true, some newPid, true⟩ service ns lp rp).2 =
        (newPid, none) := by
  refine ⟨?_, ?_, parsePid_intRender newPid, ?_, ?_⟩
  · simp [StartPortForward]
  · simp [StartPortForward, SysState.writeFile, SysState.readFile, findFile]
  · have ham : s.alive.contains oldPid = true := ha
    simp [StartPortForward, SysState.writeFile, SysState.isAlive,
      List.contains_cons, ham]
    right
    simpa using ham
  · intro t
    simp [StartPortForward]

/-- Witness for C8: the pair already has a live recorded session (pid 3);
a new successful start records pid 42 instead. -/
theorem startPortForward_overwrites_existing_pidfile_witness :
    (StartPortForward ⟨[(PortForwardPIDFile "web" "default", "3")], [3]⟩
      ⟨true, some 42, true⟩ "web" "default" 8080 80).2 = (42, none) ∧
    (StartPortForward ⟨[(PortForwardPIDFile "web" "default", "3")], [3]⟩
      ⟨true, some 42, true⟩ "web" "default" 8080 80).1.readFile
      (PortForwardPIDFile "web" "default") = some (intRender 42) ∧
    parsePid (intRender 42) = some 42 ∧
    (StartPortForward ⟨[(PortForwardPIDFile "web" "default", "3")], [3]⟩
      ⟨true, some 42, true⟩ "web" "default" 8080 80).1.isAlive 3 = true ∧
    ∀ t : SysState,
      (StartPortForward t ⟨true, some 42, true⟩ "web" "default" 8080 80).2 =
        (42, none) :=
  startPortForward_overwrites_existing_pidfile _ "web" "default" 8080 80
    "3" 3 42 (by decide) (by decide) (by decide) (by decide)

/-- Counterexample to C1: with a running session (pid 3 alive, PID file
present) and a failing SIGTERM to the process group, `StopPortForward`
returns an error and the PID file still exists afterwards — the deletion is
not unconditional. -/
theorem stopPortForward_kill_failure_keeps_pidfile :
    (IsPortForwardRunning
      ⟨[(PortForwardPIDFile "web" "default", "3")], [3]⟩
      "web" "default").2.1 = true ∧
    StopPortForward ⟨[(PortForwardPIDFile "web" "default", "3")], [3]⟩
      false "web" "default" =
      (⟨[(PortForwardPIDFile "web" "default", "3")], [3]⟩,
       some "failed to stop port forwarding process") ∧
    (StopPortForward ⟨[(PortForwardPIDFile "web" "default", "3")], [3]⟩
      false "web" "default").1.readFile (PortForwardPIDFile "web" "default") =
      some "3" := by
  decide

/-- C1 as amended: on a running session `StopPortForward` deletes the PID
file exactly when the SIGTERM to the process group succeeds; when the signal
fails, it returns an error and leaves the state (PID file included)
untouched. -/
theorem stopPortForward_running_pidfile_iff_kill_success
    (s : SysState) (service ns c : String) (pid : Int)
    (hf : s.readFile (PortForwardPIDFile service ns) = some c)
    (hp : parsePid c = some pid)
    (ha : s.isAlive pid = true) :
    (StopPortForward s true service ns =
      ((s.killPid pid).removeFile (PortForwardPIDFile service ns), none) ∧
     ((s.killPid pid).removeFile (PortForwardPIDFile service ns)).readFile
       (PortForwardPIDFile service ns) = none) ∧
    StopPortForward s false service ns =
      (s, some "failed to stop port forwarding process") := by
  have hrun : IsPortForwardRunning s service ns = (s, true, pid, none) := by
    simp [IsPortForwardRunning, IsPortForwardRunningEnv, hf, hp, ha]
  refine ⟨⟨?_, ?_⟩, ?_⟩
  · simp [StopPortForward, hrun]
  · simp only [SysState.readFile, SysState.removeFile]
    exact findFile_eraseKey_self _ _
  · simp [StopPortForward, hrun]

/-- Witness for the amended C1 at a concrete running session. -/
theorem stopPortForward_running_pidfile_iff_kill_success_witness :
    (StopPortForward ⟨[(PortForwardPIDFile "web" "default", "3")], [3]⟩
      true "web" "default" = (⟨[], []⟩, none) ∧
     (((⟨[(PortForwardPIDFile "web" "default", "3")],
       [3]⟩ : SysState).killPid 3).removeFile
       (PortForwardPIDFile "web" "default")).readFile
       (PortForwardPIDFile "web" "default") = none) ∧
    StopPortForward ⟨[(PortForwardPIDFile "web" "default", "3")], [3]⟩
      false "web" "default" =
      (⟨[(PortForwardPIDFile "web" "default", "3")], [3]⟩,
       some "failed to stop port forwarding process") :=
  stopPortForward_running_pidfile_iff_kill_success _ "web" "default" "3" 3
    (by decide) (by decide) (by decide)

/-- Counterexample to C2: with a stale PID file (recorded pid 3 is dead),
`StopPortForward` does return the "not running" error, but it mutates the
filesystem: the PID file that existed before the call is gone afterwards. -/
theorem stopPortForward_stale_pidfile_mutates_fs :
    (IsPortForwardRunning
      ⟨[(PortForwardPIDFile "web" "default", "3")], []⟩
      "web" "default").2.1 = false ∧
    (⟨[(PortForwardPIDFile "web" "default", "3")],
      []⟩ : SysState).readFile (PortForwardPIDFile "web" "default") =
      some "3" ∧
    StopPortForward ⟨[(PortForwardPIDFile "web" "default", "3")], []⟩
      true "web" "default" =
      (⟨[], []⟩, some "port forwarding is not running") ∧
    (StopPortForward ⟨[(PortForwardPIDFile "web" "default", "3")], []⟩
      true "web" "default").1.readFile (PortForwardPIDFile "web" "default") =
      none := by
  decide

/-- C2 as amended: on a pair with no running session whose PID file, if
present, parses, `StopPortForward` returns the "not running" error; when no
PID file exists the state is exactly as before; when a stale PID file
recorded a dead process, the only mutation is that this stale file has been
deleted (other files and the process set are untouched). -/
theorem stopPortForward_not_running_error_and_stale_cleanup
    (s : SysState) (killOK : Bool) (service ns : String) :
    (s.readFile (PortForwardPIDFile service ns) = none →
      StopPortForward s killOK service ns =
        (s, some "port forwarding is not running")) ∧
    (∀ c pid, s.readFile (PortForwardPIDFile service ns) = some c →
      parsePid c = some pid → s.isAlive pid = false →
      StopPortForward s killOK service ns =
        (s.removeFile (PortForwardPIDFile service ns),
         some "port forwarding is not running") ∧
      (s.removeFile (PortForwardPIDFile service ns)).readFile
        (PortForwardPIDFile service ns) = none ∧
      (∀ q, q ≠ PortForwardPIDFile service ns →
        (s.removeFile (PortForwardPIDFile service ns)).readFile q =
          s.readFile q) ∧
      (s.removeFile (PortForwardPIDFile service ns)).alive = s.alive) := by
  constructor
  · intro hf
    have hrun : IsPortForwardRunning s service ns = (s, false, 0, none) := by
      simp only [IsPortForwardRunning, IsPortForwardRunningEnv, hf]
    simp [StopPortForward, hrun]
  · intro c pid hf hp hd
    have hrun : IsPortForwardRunning s service ns =
        (s.removeFile (PortForwardPIDFile service ns), false, 0, none) := by
      simp [IsPortForwardRunning, IsPortForwardRunningEnv, hf, hp, hd]
    refine ⟨by simp [StopPortForward, hrun], ?_, ?_, rfl⟩
    · simp only [SysState.readFile, SysState.removeFile]
      exact findFile_eraseKey_self _ _
    · intro q hq
      simp only [SysState.readFile, SysState.removeFile]
      exact findFile_eraseKey_other s.files _ q hq

/-- Witness for the amended C2: one pair with no PID file, one with a stale
PID file. -/
theorem stopPortForward_not_running_error_and_stale_cleanup_witness :
    (StopPortForward ⟨[], []⟩ true "web" "default" =
      (⟨[], []⟩, some "port forwarding is not running")) ∧
    (StopPortForward ⟨[(PortForwardPIDFile "web" "default", "3")], [9]⟩
      true "web" "default" =
      ((⟨[(PortForwardPIDFile "web" "default", "3")],
        [9]⟩ : SysState).removeFile (PortForwardPIDFile "web" "default"),
       some "port forwarding is not running")) := by
  constructor
  · exact (stopPortForward_not_running_error_and_stale_cleanup
      ⟨[], []⟩ true "web" "default").1 (by decide)
  · exact ((stopPortForward_not_running_error_and_stale_cleanup
      ⟨[(PortForwardPIDFile "web" "default", "3")], [9]⟩ true "web"
      "default").2 "3" 3 (by decide) (by decide) (by decide)).1

end Kargo
